import Mathlib

/-
Verification of the UAV strategic-deconfliction engine.

The engine under study consists of:
  * utils/geo.py              — haversine_meters, safe_geodesic_meters
  * engine/interpolation.py   — interpolate_trajectory
  * engine/spatial.py         — build_spatial_index, spatial_check_with_index
  * engine/temporal.py        — temporal_check_df
  * engine/conflict_engine.py — check_primary_mission_conflicts, query_mission_status

Modelling conventions of the shallow embedding:
  * Timestamps are numbers of seconds; all numeric fields are elements of an
    abstract linear ordered field `K` (instantiated with `ℚ` for concrete
    computations and with `ℝ` where real trigonometry is needed).
  * The external ellipsoidal geodesic routine (geopy) is not part of the
    repository; it is modelled as an oracle of type `GeodOracle` returning
    `none` exactly when the Python call raises.  `safe_geodesic_meters` is
    parametric in that oracle, mirroring the `try/except` wrapper.
  * The horizontal-distance function, the cosine used by the equirectangular
    projection and the square root used for 3-D distances are likewise passed
    as parameters (`hdist`, `cosd`, `sqrtf`) so that the combinatorial layers
    stay executable; every theorem quantifies over them, hence holds in
    particular for the real transcendental instantiations.
  * A Python function that can raise on some input is embedded as an
    `Option`-valued function returning `none` exactly on the raising inputs.
  * `pandas.groupby` iterates groups in ascending key order, each group in
    original row order; `sort_values` is a stable sort.  Both are embedded by
    executable insertion sorts (`sortIds`, `sortByTime`).
  * `cKDTree.query_ball_point(q, r)` returns exactly the indices of points at
    Euclidean distance ≤ r from q (no point qualifies when r < 0); it is
    embedded as the squared-distance filter guarded by `0 ≤ r`.
-/

namespace UAV

/-- A single timestamped 3-D position: the tuple `(time, lat, lon, alt)`
used for primary waypoints and interpolation samples. -/
structure Waypoint (K : Type) where
  time : K
  lat : K
  lon : K
  alt : K
deriving DecidableEq

/-- A dataset row / other-drone waypoint record: the dict
`{DroneID, Time, Latitude, Longitude, Altitude}`. -/
structure Row (K : Type) where
  droneID : ℤ
  time : K
  lat : K
  lon : K
  alt : K
deriving DecidableEq

/-- A conflict record `(primary_waypoint, other_waypoint, distance)` as
appended to the violation lists by both finders. -/
abbrev ConflictRecord (K : Type) := Waypoint K × Row K × K

section GeoDistance

/-- Degrees → radians, `math.radians`. -/
noncomputable def radiansR (d : ℝ) : ℝ := d * (Real.pi / 180)

/-- The argument `a` of the haversine formula in `haversine_meters`:
`sin²(Δφ/2) + cos φ1 · cos φ2 · sin²(Δλ/2)`. -/
noncomputable def haversineArg (lat1 lon1 lat2 lon2 : ℝ) : ℝ :=
  Real.sin (radiansR (lat2 - lat1) / 2) ^ 2 +
    Real.cos (radiansR lat1) * Real.cos (radiansR lat2) *
      Real.sin (radiansR (lon2 - lon1) / 2) ^ 2

/-- `haversine_meters` of utils/geo.py: great-circle distance
`2 · 6371000 · asin (sqrt a)` on a sphere of radius 6 371 000 m. -/
noncomputable def haversine_meters (lat1 lon1 lat2 lon2 : ℝ) : ℝ :=
  2 * 6371000 * Real.arcsin (Real.sqrt (haversineArg lat1 lon1 lat2 lon2))

/-- The external geopy geodesic computation, modelled as an oracle:
`some d` when `geodesic((lat1,lon1),(lat2,lon2)).meters` returns `d`,
`none` when the call raises. -/
abbrev GeodOracle : Type := ℝ → ℝ → ℝ → ℝ → Option ℝ

/-- `safe_geodesic_meters` of utils/geo.py: try the geodesic oracle and on
any failure fall back to `haversine_meters`.  Total by construction, which
embeds the catch-all `except` clause. -/
noncomputable def safe_geodesic_meters (g : GeodOracle) (lat1 lon1 lat2 lon2 : ℝ) : ℝ :=
  match g lat1 lon1 lat2 lon2 with
  | some d => d
  | none => haversine_meters lat1 lon1 lat2 lon2

end GeoDistance

variable {K : Type} [LinearOrderedField K] [FloorRing K]

section TrajectoryResampler

/-- The inner loop of `interpolate_trajectory` for one consecutive waypoint
pair: skip the segment when `dt ≤ 0`, otherwise emit
`n = max 1 ⌈dt/step⌉` samples at fractions `k/n`, `k = 0 … n−1`, linearly
interpolating time, latitude, longitude and altitude. -/
def segmentSamples (step : K) (w0 w1 : Waypoint K) : List (Waypoint K) :=
  let dt := w1.time - w0.time
  if dt ≤ 0 then []
  else
    let n : ℤ := max 1 ⌈dt / step⌉
    (List.range n.toNat).map fun (k : ℕ) =>
      let frac : K := (k : K) / (n : K)
      { time := w0.time + frac * dt
        lat := w0.lat + frac * (w1.lat - w0.lat)
        lon := w0.lon + frac * (w1.lon - w0.lon)
        alt := w0.alt + frac * (w1.alt - w0.alt) }

/-- `interpolate_trajectory` of engine/interpolation.py.  For
`step_seconds ≤ 0` the raw points are returned unmodified; with fewer than
two points the single point is returned, but the empty input reaches
`times[0]` and raises `IndexError`, embedded as `none`; otherwise every
consecutive segment contributes its samples and the final original waypoint
is appended exactly. -/
def interpolate_trajectory (rows : List (Waypoint K)) (step : K) :
    Option (List (Waypoint K)) :=
  if step ≤ 0 then some rows
  else
    match rows with
    | [] => none
    | [w] => some [w]
    | w0 :: w1 :: rest =>
      some ((((w0 :: w1 :: rest).zip (w1 :: rest)).flatMap fun q =>
          segmentSamples step q.1 q.2)
        ++ [(w0 :: w1 :: rest).getLast (by simp)])

end TrajectoryResampler

section SpatialConflictFinder

/-- The hard-coded `TIME_TOLERANCE_SEC = 0.1` of engine/spatial.py. -/
def TIME_TOLERANCE_SEC (K : Type) [LinearOrderedField K] : K := 1 / 10

/-- `spatial_check_with_index` of engine/spatial.py, with
`build_spatial_index` inlined: when no other waypoints exist return `[]`
(no index is built); otherwise project every point with the
equirectangular projection at the mean latitude, query the ball of radius
`min_distance_meters` around each projected primary waypoint, discard
candidates more than `TIME_TOLERANCE_SEC` away in time, and emit a record
when the verified 3-D distance is strictly below the threshold.
`cosd` stands for `fun d => cos (radians d)`, `hdist` for
`safe_geodesic_meters` at a fixed oracle and `sqrtf` for `math.sqrt`. -/
def spatial_check_with_index (cosd : K → K) (hdist : K → K → K → K → K)
    (sqrtf : K → K) (primary_waypoints : List (Waypoint K))
    (other_waypoints : List (Row K)) (min_distance_meters : K) :
    List (ConflictRecord K) :=
  if other_waypoints.isEmpty then []
  else
    let lat_ref : K := ((other_waypoints.map (·.lat)).sum) / (other_waypoints.length : K)
    let meters_per_degree : K := 111320
    let cos_ref : K := cosd lat_ref
    primary_waypoints.flatMap fun p =>
      let px := p.lon * meters_per_degree * cos_ref
      let py := p.lat * meters_per_degree
      let candidates := other_waypoints.filter fun o =>
        let ox := o.lon * meters_per_degree * cos_ref
        let oy := o.lat * meters_per_degree
        decide (0 ≤ min_distance_meters ∧
          (px - ox) ^ 2 + (py - oy) ^ 2 ≤ min_distance_meters ^ 2)
      candidates.filterMap fun o =>
        if TIME_TOLERANCE_SEC K < |p.time - o.time| then none
        else
          let horiz_dist := hdist p.lat p.lon o.lat o.lon
          let alt_diff := |p.alt - o.alt|
          let dist_3d := sqrtf (horiz_dist ^ 2 + alt_diff ^ 2)
          if dist_3d < min_distance_meters then some (p, o, dist_3d) else none

end SpatialConflictFinder

section TemporalConflictFinder

/-- `temporal_check_df` of engine/temporal.py: raw primary rows against raw
other-drone rows inside the closed window
`[p.time − time_window_sec, p.time + time_window_sec]`, emitting a record
when the 3-D distance is strictly below `min_distance_meters`. -/
def temporal_check_df (hdist : K → K → K → K → K) (sqrtf : K → K)
    (df : List (Row K)) (primary_id : ℤ)
    (time_window_sec min_distance_meters : K) : List (ConflictRecord K) :=
  let primary_path := df.filter fun r => r.droneID == primary_id
  let other_paths := df.filter fun r => r.droneID != primary_id
  if primary_path.isEmpty || other_paths.isEmpty then []
  else
    primary_path.flatMap fun p =>
      let primary_wp : Waypoint K := ⟨p.time, p.lat, p.lon, p.alt⟩
      let window_df := other_paths.filter fun o =>
        decide (p.time - time_window_sec ≤ o.time ∧ o.time ≤ p.time + time_window_sec)
      window_df.filterMap fun o =>
        let horiz_dist := hdist p.lat p.lon o.lat o.lon
        let alt_diff := |p.alt - o.alt|
        let dist_3d := sqrtf (horiz_dist ^ 2 + alt_diff ^ 2)
        if dist_3d < min_distance_meters then some (primary_wp, o, dist_3d) else none

end TemporalConflictFinder

section ConflictOrchestrator

/-- Stable insertion of a row after all rows of not-larger time: one step of
the stable `sort_values("Time")`. -/
def insertByTime (r : Row K) : List (Row K) → List (Row K)
  | [] => [r]
  | x :: xs => if x.time ≤ r.time then x :: insertByTime r xs else r :: x :: xs

/-- Stable sort by the Time column, embedding `sort_values("Time")`. -/
def sortByTime (l : List (Row K)) : List (Row K) :=
  l.foldl (fun acc r => insertByTime r acc) []

/-- Insertion of an id into an ascending id list. -/
def insertId (g : ℤ) : List ℤ → List ℤ
  | [] => [g]
  | x :: xs => if x ≤ g then x :: insertId g xs else g :: x :: xs

/-- Ascending sort of drone ids. -/
def sortIds (l : List ℤ) : List ℤ :=
  l.foldl (fun acc g => insertId g acc) []

/-- The group keys of `df.groupby("DroneID")`: the distinct drone ids in
ascending order. -/
def droneIds (df : List (Row K)) : List ℤ :=
  sortIds ((df.map (·.droneID)).dedup)

/-- View a dataset row as the bare waypoint tuple `(Time, Latitude,
Longitude, Altitude)`. -/
def rowToWaypoint (r : Row K) : Waypoint K := ⟨r.time, r.lat, r.lon, r.alt⟩

/-- Tag an interpolation sample with the drone id it came from, as the
orchestrator does when building `other_waypoints` dicts. -/
def sampleToRow (g : ℤ) (s : Waypoint K) : Row K := ⟨g, s.time, s.lat, s.lon, s.alt⟩

/-- The body of the orchestrator's per-drone loop over non-primary groups:
sort the group by time, then either resample it (appending the samples
tagged with the drone id) when `interp_step_sec > 0`, or append the raw
sorted rows. -/
def resampleGroup (df : List (Row K)) (interp_step_sec : K)
    (acc : List (Row K)) (g : ℤ) : Option (List (Row K)) := do
  let group_sorted := sortByTime (df.filter fun r => r.droneID == g)
  if 0 < interp_step_sec then
    let samples ← interpolate_trajectory (group_sorted.map rowToWaypoint)
      interp_step_sec
    pure (acc ++ samples.map (sampleToRow g))
  else
    pure (acc ++ group_sorted)

/-- `check_primary_mission_conflicts` of engine/conflict_engine.py: resample
every non-primary group (or pass raw rows through when
`interp_step_sec ≤ 0`), return `([], [])` when the primary has no rows,
otherwise resample the primary and run both finders.  `none` embeds an
uncaught exception escaping the Python function. -/
def check_primary_mission_conflicts (cosd : K → K) (hdist : K → K → K → K → K)
    (sqrtf : K → K) (df : List (Row K)) (primary_id : ℤ)
    (min_distance_meters time_window_sec interp_step_sec : K) :
    Option (List (ConflictRecord K) × List (ConflictRecord K)) := do
  let other_waypoints ← ((droneIds df).filter fun g => g != primary_id).foldlM
    (resampleGroup df interp_step_sec) ([] : List (Row K))
  let primary_df := sortByTime (df.filter fun r => r.droneID == primary_id)
  if primary_df.isEmpty then
    pure ([], [])
  else do
    let primary_waypoints ←
      if 0 < interp_step_sec then
        interpolate_trajectory (primary_df.map rowToWaypoint) interp_step_sec
      else
        pure (primary_df.map rowToWaypoint)
    let spatial_conflicts := spatial_check_with_index cosd hdist sqrtf
      primary_waypoints other_waypoints min_distance_meters
    let temporal_conflicts := temporal_check_df hdist sqrtf df primary_id
      time_window_sec min_distance_meters
    pure (spatial_conflicts, temporal_conflicts)

/-- The result dict of `query_mission_status`. -/
structure MissionStatusResult (K : Type) where
  status : String
  spatial_conflicts : List (ConflictRecord K)
  temporal_conflicts : List (ConflictRecord K)
deriving DecidableEq

/-- `query_mission_status` of engine/conflict_engine.py: run the core engine
and derive the convenience status string. -/
def query_mission_status (cosd : K → K) (hdist : K → K → K → K → K)
    (sqrtf : K → K) (df : List (Row K)) (primary_id : ℤ)
    (min_distance_meters time_window_sec interp_step_sec : K) :
    Option (MissionStatusResult K) := do
  let res ← check_primary_mission_conflicts cosd hdist sqrtf df primary_id
    min_distance_meters time_window_sec interp_step_sec
  pure { status := if res.1.isEmpty && res.2.isEmpty then "clear" else "conflict detected"
         spatial_conflicts := res.1
         temporal_conflicts := res.2 }

end ConflictOrchestrator

section ResamplerTheorems

/-- Linear interpolation with a coefficient in `[0,1]` stays between the
minimum and the maximum of the endpoints. -/
theorem convex_min_max (a b c : K) (h0 : 0 ≤ c) (h1 : c ≤ 1) :
    min a b ≤ a + c * (b - a) ∧ a + c * (b - a) ≤ max a b := by
  rcases le_total a b with hab | hab
  · rw [min_eq_left hab, max_eq_right hab]
    constructor <;> nlinarith
  · rw [min_eq_right hab, max_eq_left hab]
    constructor <;> nlinarith

/-- The head of an append is the head of a non-empty left part. -/
theorem head?_append_of_eq_some (l1 l2 : List (Waypoint K)) (a : Waypoint K)
    (h : l1.head? = some a) : (l1 ++ l2).head? = some a := by
  cases l1 with
  | nil => simp at h
  | cons x xs => simpa using h

/-- A segment whose time delta is positive emits its first sample at the
fraction 0, i.e. exactly at the segment's first waypoint. -/
theorem segmentSamples_head (step : K) (w0 w1 : Waypoint K)
    (h : w0.time < w1.time) :
    (segmentSamples step w0 w1).head? = some w0 := by
  have hpos : ¬ (w1.time - w0.time ≤ 0) := not_le.2 (sub_pos.2 h)
  have hn1 : (1:ℤ) ≤ max 1 ⌈(w1.time - w0.time) / step⌉ := le_max_left _ _
  have hnz : (max 1 ⌈(w1.time - w0.time) / step⌉).toNat ≠ 0 := by omega
  obtain ⟨m, hm⟩ := Nat.exists_eq_succ_of_ne_zero hnz
  simp only [segmentSamples, if_neg hpos, hm, List.range_succ_eq_map,
    List.map_cons, List.head?_cons]
  cases w0
  simp

/-- C8: for every input trajectory and every stepSeconds ≤ 0,
interpolate_trajectory is the identity transform on the waypoint
sequence. -/
theorem C8_step_nonpos_identity (rows : List (Waypoint K)) (step : K)
    (h : step ≤ 0) : interpolate_trajectory rows step = some rows := by
  unfold interpolate_trajectory
  rw [if_pos h]

theorem C8_step_nonpos_identity_witness :
    (0:ℚ) ≤ 0 ∧
      interpolate_trajectory ([⟨0,0,0,0⟩] : List (Waypoint ℚ)) 0 =
        some [⟨0,0,0,0⟩] :=
  ⟨le_refl 0, C8_step_nonpos_identity ([⟨0,0,0,0⟩] : List (Waypoint ℚ)) 0 (le_refl 0)⟩

/-- C7 counterexample: the empty trajectory with stepSeconds = 0.5 is NOT
returned unchanged — the code reaches `times[0]` on an empty array and
raises IndexError (embedded as `none`), rather than returning the empty
sequence. -/
theorem C7_empty_trajectory_counterexample :
    interpolate_trajectory ([] : List (Waypoint ℚ)) (1/2) = none ∧
      (none : Option (List (Waypoint ℚ))) ≠ some [] := by
  constructor
  · have : ¬ ((1:ℚ)/2 ≤ 0) := by norm_num
    unfold interpolate_trajectory
    rw [if_neg this]
  · simp

/-- C7 amended: a trajectory with exactly one waypoint is returned
unchanged for every stepSeconds (the empty trajectory is returned
unchanged only when stepSeconds ≤ 0 and is an IndexError otherwise). -/
theorem C7_single_point_identity (rows : List (Waypoint K)) (step : K)
    (h : rows.length = 1) : interpolate_trajectory rows step = some rows := by
  match rows, h with
  | [w], _ =>
    unfold interpolate_trajectory
    split
    · rfl
    · rfl

theorem C7_single_point_identity_witness :
    ([(⟨0,0,0,0⟩ : Waypoint ℚ)]).length = 1 ∧
      interpolate_trajectory ([⟨0,0,0,0⟩] : List (Waypoint ℚ)) (1/2) =
        some [⟨0,0,0,0⟩] :=
  ⟨rfl, C7_single_point_identity ([⟨0,0,0,0⟩] : List (Waypoint ℚ)) (1/2) rfl⟩

/-- C1 counterexample: two waypoints with the same timestamp make the only
segment degenerate, so it is skipped and the resampled output's first
element is the final waypoint, which differs from the input's first
waypoint. -/
theorem C1_first_element_counterexample :
    interpolate_trajectory ([⟨0,0,0,0⟩, ⟨0,1,1,1⟩] : List (Waypoint ℚ)) (1/2) =
      some [⟨0,1,1,1⟩] ∧ (⟨0,1,1,1⟩ : Waypoint ℚ) ≠ ⟨0,0,0,0⟩ := by
  constructor
  · have hs : ¬ ((1:ℚ)/2 ≤ 0) := by norm_num
    have hd : ((⟨0,1,1,1⟩ : Waypoint ℚ).time - (⟨0,0,0,0⟩ : Waypoint ℚ).time ≤ 0) := by
      norm_num
    unfold interpolate_trajectory
    rw [if_neg hs]
    simp [segmentSamples, if_pos hd, List.getLast]
  · simp

/-- C1 amended: for every trajectory with at least 2 waypoints and every
stepSeconds > 0 the output is non-empty and its last element equals the
input's last waypoint exactly; its first element equals the input's first
waypoint exactly PROVIDED the first segment has a positive time delta
(a degenerate leading segment is skipped, see the counterexample). -/
theorem C1_endpoints_amended (rows : List (Waypoint K)) (step : K)
    (h2 : 2 ≤ rows.length) (hstep : 0 < step) :
    ∃ out, interpolate_trajectory rows step = some out ∧ out ≠ [] ∧
      out.getLast? = rows.getLast? ∧
      ∀ w0 w1 rest, rows = w0 :: w1 :: rest → w0.time < w1.time →
        out.head? = some w0 := by
  match rows, h2 with
  | w0 :: w1 :: rest, _ =>
    have hnle : ¬ step ≤ 0 := not_le.2 hstep
    refine ⟨(((w0 :: w1 :: rest).zip (w1 :: rest)).flatMap fun q =>
        segmentSamples step q.1 q.2) ++ [(w0 :: w1 :: rest).getLast (by simp)],
      ?_, ?_, ?_, ?_⟩
    · unfold interpolate_trajectory
      rw [if_neg hnle]
    · simp
    · rw [List.getLast?_concat]
      exact (List.getLast?_eq_getLast _ (by simp)).symm
    · rintro a b rest2 heq hlt
      cases heq
      rw [List.zip_cons_cons, List.flatMap_cons, List.append_assoc]
      exact head?_append_of_eq_some _ _ _ (segmentSamples_head step w0 w1 hlt)

theorem C1_endpoints_amended_witness :
    2 ≤ ([⟨0,0,0,0⟩, ⟨1,1,1,1⟩] : List (Waypoint ℚ)).length ∧ (0:ℚ) < 1 ∧
      (∃ out, interpolate_trajectory ([⟨0,0,0,0⟩, ⟨1,1,1,1⟩] : List (Waypoint ℚ)) 1 =
          some out ∧ out ≠ [] ∧
        out.getLast? = ([⟨0,0,0,0⟩, ⟨1,1,1,1⟩] : List (Waypoint ℚ)).getLast? ∧
        ∀ w0 w1 rest,
          ([⟨0,0,0,0⟩, ⟨1,1,1,1⟩] : List (Waypoint ℚ)) = w0 :: w1 :: rest →
          w0.time < w1.time → out.head? = some w0) :=
  ⟨by decide, by norm_num,
    C1_endpoints_amended ([⟨0,0,0,0⟩, ⟨1,1,1,1⟩] : List (Waypoint ℚ)) 1
      (by decide) (by norm_num)⟩

/-- C10: every sample emitted for a segment with positive time delta has a
timestamp in the half-open interval `[w0.time, w1.time)` and each of its
latitude, longitude and altitude is a convex combination of — hence lies
between — the corresponding endpoint coordinates. -/
theorem C10_segment_convexity (step : K) (w0 w1 : Waypoint K)
    (hdt : w0.time < w1.time) (hstep : 0 < step) (s : Waypoint K)
    (hmem : s ∈ segmentSamples step w0 w1) :
    ∃ c, 0 ≤ c ∧ c < 1 ∧
      s.time = w0.time + c * (w1.time - w0.time) ∧
      s.lat = w0.lat + c * (w1.lat - w0.lat) ∧
      s.lon = w0.lon + c * (w1.lon - w0.lon) ∧
      s.alt = w0.alt + c * (w1.alt - w0.alt) ∧
      w0.time ≤ s.time ∧ s.time < w1.time ∧
      min w0.lat w1.lat ≤ s.lat ∧ s.lat ≤ max w0.lat w1.lat ∧
      min w0.lon w1.lon ≤ s.lon ∧ s.lon ≤ max w0.lon w1.lon ∧
      min w0.alt w1.alt ≤ s.alt ∧ s.alt ≤ max w0.alt w1.alt := by
  have hdtpos : 0 < w1.time - w0.time := sub_pos.2 hdt
  have hpos : ¬ (w1.time - w0.time ≤ 0) := not_le.2 hdtpos
  simp only [segmentSamples] at hmem
  rw [if_neg hpos] at hmem
  obtain ⟨a, ha, hfa⟩ := List.mem_map.1 hmem
  rw [List.mem_range] at ha
  subst hfa
  have hn1 : (1:ℤ) ≤ max 1 ⌈(w1.time - w0.time) / step⌉ := le_max_left _ _
  have haZ : (a:ℤ) < max 1 ⌈(w1.time - w0.time) / step⌉ := by omega
  have hnK : (0:K) < ((max 1 ⌈(w1.time - w0.time) / step⌉ : ℤ) : K) := by
    exact_mod_cast lt_of_lt_of_le one_pos hn1
  have haK : ((a:ℕ) : K) < ((max 1 ⌈(w1.time - w0.time) / step⌉ : ℤ) : K) := by
    exact_mod_cast haZ
  have hc0 : (0:K) ≤ (a : K) / ((max 1 ⌈(w1.time - w0.time) / step⌉ : ℤ) : K) :=
    div_nonneg (Nat.cast_nonneg a) hnK.le
  have hc1 : (a : K) / ((max 1 ⌈(w1.time - w0.time) / step⌉ : ℤ) : K) < 1 :=
    (div_lt_one hnK).2 haK
  refine ⟨(a : K) / ((max 1 ⌈(w1.time - w0.time) / step⌉ : ℤ) : K), hc0, hc1,
    rfl, rfl, rfl, rfl, ?_, ?_, ?_, ?_, ?_, ?_, ?_, ?_⟩
  · have := mul_nonneg hc0 hdtpos.le
    show w0.time ≤ w0.time + _
    linarith
  · have := mul_lt_mul_of_pos_right hc1 hdtpos
    show w0.time + _ < w1.time
    linarith
  · exact (convex_min_max _ _ _ hc0 hc1.le).1
  · exact (convex_min_max _ _ _ hc0 hc1.le).2
  · exact (convex_min_max _ _ _ hc0 hc1.le).1
  · exact (convex_min_max _ _ _ hc0 hc1.le).2
  · exact (convex_min_max _ _ _ hc0 hc1.le).1
  · exact (convex_min_max _ _ _ hc0 hc1.le).2

theorem C10_segment_convexity_witness :
    (⟨0,0,0,0⟩ : Waypoint ℚ).time < (⟨1,1,1,1⟩ : Waypoint ℚ).time ∧ (0:ℚ) < 1 ∧
      (⟨0,0,0,0⟩ : Waypoint ℚ) ∈ segmentSamples (1:ℚ) ⟨0,0,0,0⟩ ⟨1,1,1,1⟩ ∧
      (∃ c, 0 ≤ c ∧ c < 1 ∧
        (⟨0,0,0,0⟩ : Waypoint ℚ).time =
          (⟨0,0,0,0⟩ : Waypoint ℚ).time + c * ((⟨1,1,1,1⟩ : Waypoint ℚ).time - (⟨0,0,0,0⟩ : Waypoint ℚ).time) ∧
        (⟨0,0,0,0⟩ : Waypoint ℚ).lat =
          (⟨0,0,0,0⟩ : Waypoint ℚ).lat + c * ((⟨1,1,1,1⟩ : Waypoint ℚ).lat - (⟨0,0,0,0⟩ : Waypoint ℚ).lat) ∧
        (⟨0,0,0,0⟩ : Waypoint ℚ).lon =
          (⟨0,0,0,0⟩ : Waypoint ℚ).lon + c * ((⟨1,1,1,1⟩ : Waypoint ℚ).lon - (⟨0,0,0,0⟩ : Waypoint ℚ).lon) ∧
        (⟨0,0,0,0⟩ : Waypoint ℚ).alt =
          (⟨0,0,0,0⟩ : Waypoint ℚ).alt + c * ((⟨1,1,1,1⟩ : Waypoint ℚ).alt - (⟨0,0,0,0⟩ : Waypoint ℚ).alt) ∧
        (⟨0,0,0,0⟩ : Waypoint ℚ).time ≤ (⟨0,0,0,0⟩ : Waypoint ℚ).time ∧
        (⟨0,0,0,0⟩ : Waypoint ℚ).time < (⟨1,1,1,1⟩ : Waypoint ℚ).time ∧
        min (⟨0,0,0,0⟩ : Waypoint ℚ).lat (⟨1,1,1,1⟩ : Waypoint ℚ).lat ≤ (⟨0,0,0,0⟩ : Waypoint ℚ).lat ∧
        (⟨0,0,0,0⟩ : Waypoint ℚ).lat ≤ max (⟨0,0,0,0⟩ : Waypoint ℚ).lat (⟨1,1,1,1⟩ : Waypoint ℚ).lat ∧
        min (⟨0,0,0,0⟩ : Waypoint ℚ).lon (⟨1,1,1,1⟩ : Waypoint ℚ).lon ≤ (⟨0,0,0,0⟩ : Waypoint ℚ).lon ∧
        (⟨0,0,0,0⟩ : Waypoint ℚ).lon ≤ max (⟨0,0,0,0⟩ : Waypoint ℚ).lon (⟨1,1,1,1⟩ : Waypoint ℚ).lon ∧
        min (⟨0,0,0,0⟩ : Waypoint ℚ).alt (⟨1,1,1,1⟩ : Waypoint ℚ).alt ≤ (⟨0,0,0,0⟩ : Waypoint ℚ).alt ∧
        (⟨0,0,0,0⟩ : Waypoint ℚ).alt ≤ max (⟨0,0,0,0⟩ : Waypoint ℚ).alt (⟨1,1,1,1⟩ : Waypoint ℚ).alt) := by
  have hmem : (⟨0,0,0,0⟩ : Waypoint ℚ) ∈ segmentSamples (1:ℚ) ⟨0,0,0,0⟩ ⟨1,1,1,1⟩ := by
    norm_num [segmentSamples, List.range_succ]
  exact ⟨by norm_num, by norm_num, hmem,
    C10_segment_convexity 1 ⟨0,0,0,0⟩ ⟨1,1,1,1⟩ (by norm_num) (by norm_num)
      ⟨0,0,0,0⟩ hmem⟩

end ResamplerTheorems

section FinderTheorems

/-- filterMap is monotone in the partial function, pointwise, w.r.t.
sublists. -/
theorem filterMap_sublist_mono {α β : Type} (l : List α) (f g : α → Option β)
    (h : ∀ a b, f a = some b → g a = some b) :
    (l.filterMap f).Sublist (l.filterMap g) := by
  induction l with
  | nil => simp
  | cons x xs ih =>
    rw [List.filterMap_cons, List.filterMap_cons]
    cases hfx : f x with
    | none =>
      cases hgx : g x with
      | none => exact ih
      | some b => exact ih.cons b
    | some b =>
      rw [h x b hfx]
      exact ih.cons₂ b

/-- flatMap is monotone in the function, pointwise, w.r.t. sublists. -/
theorem flatMap_sublist_mono {α β : Type} (l : List α) (f g : α → List β)
    (h : ∀ a, (f a).Sublist (g a)) :
    (l.flatMap f).Sublist (l.flatMap g) := by
  induction l with
  | nil => simp
  | cons x xs ih =>
    rw [List.flatMap_cons, List.flatMap_cons]
    exact (h x).append ih

/-- C3: with every other parameter fixed, raising the separation threshold
from m1 to m2 ≥ m1 turns each finder's violation list into a superlist, so
neither the spatial nor the temporal conflict count can decrease. -/
theorem C3_threshold_monotonicity (cosd : K → K) (hdist : K → K → K → K → K)
    (sqrtf : K → K) (primary_waypoints : List (Waypoint K))
    (other_waypoints : List (Row K)) (df : List (Row K)) (primary_id : ℤ)
    (time_window_sec m1 m2 : K) (h12 : m1 ≤ m2) :
    (spatial_check_with_index cosd hdist sqrtf primary_waypoints
        other_waypoints m1).length ≤
      (spatial_check_with_index cosd hdist sqrtf primary_waypoints
        other_waypoints m2).length ∧
    (temporal_check_df hdist sqrtf df primary_id time_window_sec m1).length ≤
      (temporal_check_df hdist sqrtf df primary_id time_window_sec m2).length := by
  constructor
  · apply List.Sublist.length_le
    simp only [spatial_check_with_index]
    by_cases hoe : other_waypoints.isEmpty
    · rw [if_pos hoe, if_pos hoe]
    · rw [if_neg hoe, if_neg hoe]
      apply flatMap_sublist_mono
      intro p
      refine List.Sublist.trans (filterMap_sublist_mono _ _ _ ?_)
        ((List.monotone_filter_right _ ?_).filterMap _)
      · intro o b hfb
        by_cases ht : TIME_TOLERANCE_SEC K < |p.time - o.time|
        · rw [if_pos ht] at hfb
          exact absurd hfb (by simp)
        · rw [if_neg ht] at hfb
          rw [if_neg ht]
          by_cases hlt : sqrtf (hdist p.lat p.lon o.lat o.lon ^ 2 +
              |p.alt - o.alt| ^ 2) < m1
          · rw [if_pos hlt] at hfb
            rw [if_pos (lt_of_lt_of_le hlt h12)]
            exact hfb
          · rw [if_neg hlt] at hfb
            exact absurd hfb (by simp)
      · intro o ho
        obtain ⟨h0, hd⟩ := of_decide_eq_true ho
        exact decide_eq_true ⟨le_trans h0 h12,
          le_trans hd (pow_le_pow_left₀ h0 h12 2)⟩
  · apply List.Sublist.length_le
    simp only [temporal_check_df]
    by_cases hge : ((df.filter fun r => r.droneID == primary_id).isEmpty ||
        (df.filter fun r => r.droneID != primary_id).isEmpty) = true
    · rw [if_pos hge, if_pos hge]
    · rw [if_neg hge, if_neg hge]
      apply flatMap_sublist_mono
      intro p
      apply filterMap_sublist_mono
      intro o b hfb
      by_cases hlt : sqrtf (hdist p.lat p.lon o.lat o.lon ^ 2 +
          |p.alt - o.alt| ^ 2) < m1
      · rw [if_pos hlt] at hfb
        rw [if_pos (lt_of_lt_of_le hlt h12)]
        exact hfb
      · rw [if_neg hlt] at hfb
        exact absurd hfb (by simp)

/-- C5: every record emitted by the spatial finder pairs waypoints whose
timestamps differ by at most the hard-coded TIME_TOLERANCE_SEC, and that
tolerance is the fixed constant 0.1 s — the finder does not even receive
the caller's time window. -/
theorem C5_spatial_time_tolerance (cosd : K → K) (hdist : K → K → K → K → K)
    (sqrtf : K → K) (primary_waypoints : List (Waypoint K))
    (other_waypoints : List (Row K)) (min_distance_meters : K)
    (rec : ConflictRecord K)
    (hmem : rec ∈ spatial_check_with_index cosd hdist sqrtf primary_waypoints
      other_waypoints min_distance_meters) :
    |rec.1.time - rec.2.1.time| ≤ TIME_TOLERANCE_SEC K ∧
      TIME_TOLERANCE_SEC K = 1 / 10 := by
  refine ⟨?_, rfl⟩
  simp only [spatial_check_with_index] at hmem
  by_cases hoe : other_waypoints.isEmpty
  · rw [if_pos hoe] at hmem
    exact absurd hmem (List.not_mem_nil rec)
  · rw [if_neg hoe, List.mem_flatMap] at hmem
    obtain ⟨p, hp, hrec⟩ := hmem
    rw [List.mem_filterMap] at hrec
    obtain ⟨o, ho, hfo⟩ := hrec
    by_cases ht : TIME_TOLERANCE_SEC K < |p.time - o.time|
    · rw [if_pos ht] at hfo
      exact absurd hfo (by simp)
    · rw [if_neg ht] at hfo
      by_cases hlt : sqrtf (hdist p.lat p.lon o.lat o.lon ^ 2 +
          |p.alt - o.alt| ^ 2) < min_distance_meters
      · rw [if_pos hlt] at hfo
        injection hfo with h
        subst h
        exact not_lt.1 ht
      · rw [if_neg hlt] at hfo
        exact absurd hfo (by simp)

/-- C4: the temporal finder emits a record for primary row p and other row
o exactly when o's timestamp lies in the closed window around p's and the
3-D distance is strictly below the threshold; and it returns the empty
list as soon as the primary or the set of other drones has no raw
waypoints. -/
theorem C4_temporal_characterization (hdist : K → K → K → K → K) (sqrtf : K → K)
    (df : List (Row K)) (primary_id : ℤ)
    (time_window_sec min_distance_meters : K) :
    (∀ pwp o d, (pwp, o, d) ∈ temporal_check_df hdist sqrtf df primary_id
        time_window_sec min_distance_meters ↔
      ∃ p, p ∈ df ∧ p.droneID = primary_id ∧
        pwp = (⟨p.time, p.lat, p.lon, p.alt⟩ : Waypoint K) ∧
        o ∈ df ∧ o.droneID ≠ primary_id ∧
        p.time - time_window_sec ≤ o.time ∧ o.time ≤ p.time + time_window_sec ∧
        d = sqrtf (hdist p.lat p.lon o.lat o.lon ^ 2 + |p.alt - o.alt| ^ 2) ∧
        d < min_distance_meters) ∧
    ((df.filter fun r => r.droneID == primary_id) = [] ∨
        (df.filter fun r => r.droneID != primary_id) = [] →
      temporal_check_df hdist sqrtf df primary_id time_window_sec
        min_distance_meters = []) := by
  constructor
  · intro pwp o d
    simp only [temporal_check_df]
    by_cases hg : ((df.filter fun r => r.droneID == primary_id).isEmpty ||
        (df.filter fun r => r.droneID != primary_id).isEmpty) = true
    · rw [if_pos hg]
      simp only [List.not_mem_nil, false_iff]
      rintro ⟨p, hpdf, hpid, -, hodf, hoid, -⟩
      rw [Bool.or_eq_true, List.isEmpty_iff, List.isEmpty_iff] at hg
      cases hg with
      | inl h =>
        have hpin : p ∈ df.filter fun r => r.droneID == primary_id :=
          List.mem_filter.2 ⟨hpdf, by simp [hpid]⟩
        rw [h] at hpin
        exact absurd hpin (List.not_mem_nil p)
      | inr h =>
        have hoin : o ∈ df.filter fun r => r.droneID != primary_id :=
          List.mem_filter.2 ⟨hodf, by simp [hoid]⟩
        rw [h] at hoin
        exact absurd hoin (List.not_mem_nil o)
    · rw [if_neg hg, List.mem_flatMap]
      constructor
      · rintro ⟨p, hp, hin⟩
        rw [List.mem_filterMap] at hin
        obtain ⟨o2, ho2, hfo⟩ := hin
        by_cases hlt : sqrtf (hdist p.lat p.lon o2.lat o2.lon ^ 2 +
            |p.alt - o2.alt| ^ 2) < min_distance_meters
        · rw [if_pos hlt, Option.some.injEq, Prod.mk.injEq, Prod.mk.injEq] at hfo
          obtain ⟨h1, h2, h3⟩ := hfo
          subst h2
          rw [List.mem_filter] at hp
          rw [List.mem_filter, List.mem_filter] at ho2
          obtain ⟨⟨hodf, hoid⟩, hwin⟩ := ho2
          obtain ⟨htw1, htw2⟩ := of_decide_eq_true hwin
          exact ⟨p, hp.1, by simpa using hp.2, h1.symm, hodf,
            by simpa using hoid, htw1, htw2, h3.symm, h3 ▸ hlt⟩
        · rw [if_neg hlt] at hfo
          exact absurd hfo (by simp)
      · rintro ⟨p, hpdf, hpid, rfl, hodf, hoid, htw1, htw2, rfl, hlt⟩
        refine ⟨p, List.mem_filter.2 ⟨hpdf, by simp [hpid]⟩, ?_⟩
        rw [List.mem_filterMap]
        refine ⟨o, List.mem_filter.2 ⟨List.mem_filter.2 ⟨hodf, by simp [hoid]⟩,
          decide_eq_true ⟨htw1, htw2⟩⟩, ?_⟩
        rw [if_pos hlt]
  · intro hg
    simp only [temporal_check_df]
    rw [if_pos]
    rw [Bool.or_eq_true, List.isEmpty_iff, List.isEmpty_iff]
    exact hg

theorem C3_threshold_monotonicity_witness :
    (1:ℚ) ≤ 2 ∧
    ((spatial_check_with_index (fun x => x) (fun _ _ _ _ => 0) (fun x => x)
        ([] : List (Waypoint ℚ)) ([] : List (Row ℚ)) 1).length ≤
      (spatial_check_with_index (fun x => x) (fun _ _ _ _ => 0) (fun x => x)
        ([] : List (Waypoint ℚ)) ([] : List (Row ℚ)) 2).length ∧
    (temporal_check_df (fun _ _ _ _ => 0) (fun x => x) ([] : List (Row ℚ))
        1 1 1).length ≤
      (temporal_check_df (fun _ _ _ _ => 0) (fun x => x) ([] : List (Row ℚ))
        1 1 2).length) :=
  ⟨by norm_num,
    C3_threshold_monotonicity (fun x => x) (fun _ _ _ _ => 0) (fun x => x)
      ([] : List (Waypoint ℚ)) ([] : List (Row ℚ)) ([] : List (Row ℚ))
      1 1 1 2 (by norm_num)⟩

theorem C5_spatial_time_tolerance_witness :
    ((⟨0,0,0,0⟩, ⟨1,0,0,0,0⟩, 0) : ConflictRecord ℚ) ∈
      spatial_check_with_index (fun _ => 1) (fun _ _ _ _ => 0) (fun _ => 0)
        [⟨0,0,0,0⟩] [⟨1,0,0,0,0⟩] 1 ∧
    (|((⟨0,0,0,0⟩, ⟨1,0,0,0,0⟩, 0) : ConflictRecord ℚ).1.time -
        ((⟨0,0,0,0⟩, ⟨1,0,0,0,0⟩, 0) : ConflictRecord ℚ).2.1.time| ≤
      TIME_TOLERANCE_SEC ℚ ∧ TIME_TOLERANCE_SEC ℚ = 1 / 10) := by
  have hmem : ((⟨0,0,0,0⟩, ⟨1,0,0,0,0⟩, 0) : ConflictRecord ℚ) ∈
      spatial_check_with_index (fun _ => 1) (fun _ _ _ _ => 0) (fun _ => 0)
        [⟨0,0,0,0⟩] [⟨1,0,0,0,0⟩] 1 := by
    norm_num [spatial_check_with_index, TIME_TOLERANCE_SEC]
  exact ⟨hmem, C5_spatial_time_tolerance _ _ _ _ _ _ _ hmem⟩

theorem C4_temporal_characterization_witness :
    (([] : List (Row ℚ)).filter (fun r => r.droneID == 1) = [] ∨
      ([] : List (Row ℚ)).filter (fun r => r.droneID != 1) = []) ∧
    temporal_check_df (fun _ _ _ _ => (0:ℚ)) (fun x => x)
      ([] : List (Row ℚ)) 1 1 1 = [] :=
  ⟨Or.inl rfl,
    (C4_temporal_characterization (fun _ _ _ _ => (0:ℚ)) (fun x => x)
      ([] : List (Row ℚ)) 1 1 1).2 (Or.inl rfl)⟩

end FinderTheorems

section GeoDistanceTheorems

/-- The haversine argument lies in [0,1] for well-formed latitudes, so the
`sqrt` and `asin` of the formula are applied inside their domains. -/
theorem haversineArg_bounds (lat1 lon1 lat2 lon2 : ℝ)
    (h1 : |lat1| ≤ 90) (h2 : |lat2| ≤ 90) :
    0 ≤ haversineArg lat1 lon1 lat2 lon2 ∧
      haversineArg lat1 lon1 lat2 lon2 ≤ 1 := by
  have hpi := Real.pi_pos
  rw [abs_le] at h1 h2
  have hc1 : 0 ≤ Real.cos (radiansR lat1) := by
    apply Real.cos_nonneg_of_mem_Icc
    constructor
    · unfold radiansR
      nlinarith [h1.1]
    · unfold radiansR
      nlinarith [h1.2]
  have hc2 : 0 ≤ Real.cos (radiansR lat2) := by
    apply Real.cos_nonneg_of_mem_Icc
    constructor
    · unfold radiansR
      nlinarith [h2.1]
    · unfold radiansR
      nlinarith [h2.2]
  constructor
  · unfold haversineArg
    have ha := sq_nonneg (Real.sin (radiansR (lat2 - lat1) / 2))
    have hb := mul_nonneg (mul_nonneg hc1 hc2)
      (sq_nonneg (Real.sin (radiansR (lon2 - lon1) / 2)))
    linarith
  · unfold haversineArg
    have hs2 : Real.sin (radiansR (lon2 - lon1) / 2) ^ 2 ≤ 1 :=
      Real.sin_sq_le_one _
    have hlin : radiansR (lat2 - lat1) = radiansR lat2 - radiansR lat1 := by
      unfold radiansR
      ring
    rw [hlin]
    have h2u : Real.cos (radiansR lat2 - radiansR lat1) =
        2 * Real.cos ((radiansR lat2 - radiansR lat1) / 2) ^ 2 - 1 := by
      have hco := Real.cos_two_mul ((radiansR lat2 - radiansR lat1) / 2)
      rwa [show 2 * ((radiansR lat2 - radiansR lat1) / 2) =
        radiansR lat2 - radiansR lat1 by ring] at hco
    have hpyth := Real.sin_sq_add_cos_sq ((radiansR lat2 - radiansR lat1) / 2)
    have hsub := Real.cos_sub (radiansR lat2) (radiansR lat1)
    have hadd := Real.cos_add (radiansR lat1) (radiansR lat2)
    have hle1 := Real.cos_le_one (radiansR lat1 + radiansR lat2)
    have hkey : Real.sin ((radiansR lat2 - radiansR lat1) / 2) ^ 2 +
        Real.cos (radiansR lat1) * Real.cos (radiansR lat2) ≤ 1 := by
      nlinarith [h2u, hpyth, hsub, hadd, hle1]
    nlinarith [mul_nonneg hc1 hc2, hs2, hkey]

/-- C2: the safe geodesic wrapper is total — it equals the haversine
fallback whenever the external geodesic oracle fails, its value is
non-negative, and it is bounded (finite): by the oracle's bound on success
and by π·6371000 m through the fallback; moreover for well-formed
latitudes the haversine argument stays inside [0,1], the domain of the
square root and arcsine it feeds. -/
theorem C2_safe_geodesic_total (g : GeodOracle) (lat1 lon1 lat2 lon2 B : ℝ)
    (h1 : |lat1| ≤ 90) (h2 : |lat2| ≤ 90)
    (hg : ∀ d, g lat1 lon1 lat2 lon2 = some d → 0 ≤ d ∧ d ≤ B) :
    (g lat1 lon1 lat2 lon2 = none →
      safe_geodesic_meters g lat1 lon1 lat2 lon2 =
        haversine_meters lat1 lon1 lat2 lon2) ∧
    0 ≤ safe_geodesic_meters g lat1 lon1 lat2 lon2 ∧
    safe_geodesic_meters g lat1 lon1 lat2 lon2 ≤ max B (Real.pi * 6371000) ∧
    0 ≤ haversineArg lat1 lon1 lat2 lon2 ∧
      haversineArg lat1 lon1 lat2 lon2 ≤ 1 := by
  obtain ⟨ha0, ha1⟩ := haversineArg_bounds lat1 lon1 lat2 lon2 h1 h2
  have harc0 : 0 ≤ Real.arcsin (Real.sqrt (haversineArg lat1 lon1 lat2 lon2)) :=
    Real.arcsin_nonneg.2 (Real.sqrt_nonneg _)
  have harc1 := Real.arcsin_le_pi_div_two
    (Real.sqrt (haversineArg lat1 lon1 lat2 lon2))
  have hhav0 : 0 ≤ haversine_meters lat1 lon1 lat2 lon2 := by
    unfold haversine_meters
    nlinarith [harc0]
  have hhavB : haversine_meters lat1 lon1 lat2 lon2 ≤ Real.pi * 6371000 := by
    unfold haversine_meters
    nlinarith [harc1]
  cases hgo : g lat1 lon1 lat2 lon2 with
  | none =>
    have heq : safe_geodesic_meters g lat1 lon1 lat2 lon2 =
        haversine_meters lat1 lon1 lat2 lon2 := by
      unfold safe_geodesic_meters
      rw [hgo]
    refine ⟨fun _ => heq, ?_, ?_, ha0, ha1⟩
    · rw [heq]
      exact hhav0
    · rw [heq]
      exact le_trans hhavB (le_max_right _ _)
  | some d =>
    obtain ⟨hd0, hdB⟩ := hg d hgo
    have heq : safe_geodesic_meters g lat1 lon1 lat2 lon2 = d := by
      unfold safe_geodesic_meters
      rw [hgo]
    refine ⟨fun hn => ?_, ?_, ?_, ha0, ha1⟩
    · exact absurd hn (by simp)
    · rw [heq]
      exact hd0
    · rw [heq]
      exact le_trans hdB (le_max_left _ _)

theorem C2_safe_geodesic_total_witness :
    |(0:ℝ)| ≤ 90 ∧
    (∀ d : ℝ, (fun _ _ _ _ => (none : Option ℝ)) (0:ℝ) (0:ℝ) (0:ℝ) (0:ℝ) =
      some d → 0 ≤ d ∧ d ≤ 0) ∧
    (((fun _ _ _ _ => (none : Option ℝ)) (0:ℝ) (0:ℝ) (0:ℝ) (0:ℝ) = none →
      safe_geodesic_meters (fun _ _ _ _ => none) 0 0 0 0 =
        haversine_meters 0 0 0 0) ∧
    0 ≤ safe_geodesic_meters (fun _ _ _ _ => none) 0 0 0 0 ∧
    safe_geodesic_meters (fun _ _ _ _ => none) 0 0 0 0 ≤
      max 0 (Real.pi * 6371000) ∧
    0 ≤ haversineArg 0 0 0 0 ∧ haversineArg 0 0 0 0 ≤ 1) :=
  ⟨by norm_num, by intro d h; exact absurd h (by simp),
    C2_safe_geodesic_total (fun _ _ _ _ => none) 0 0 0 0 0
      (by norm_num) (by norm_num) (by intro d h; exact absurd h (by simp))⟩

end GeoDistanceTheorems

section OrchestratorTheorems

/-- The resampler can only fail on the empty waypoint list (the raising
input); every non-empty trajectory yields a result. -/
theorem interpolate_trajectory_isSome (rows : List (Waypoint K)) (step : K)
    (h : rows ≠ []) : ∃ out, interpolate_trajectory rows step = some out := by
  unfold interpolate_trajectory
  by_cases hs : step ≤ 0
  · exact ⟨rows, if_pos hs⟩
  · rw [if_neg hs]
    match rows, h with
    | [w], _ => exact ⟨[w], rfl⟩
    | w0 :: w1 :: rest, _ => exact ⟨_, rfl⟩

/-- Inserting a row grows the length by one. -/
theorem insertByTime_length (r : Row K) (l : List (Row K)) :
    (insertByTime r l).length = l.length + 1 := by
  induction l with
  | nil => rfl
  | cons x xs ih =>
    unfold insertByTime
    by_cases h : x.time ≤ r.time
    · rw [if_pos h]
      simp [ih]
    · rw [if_neg h]
      simp

/-- The stable sort by time preserves the number of rows. -/
theorem sortByTime_length (l : List (Row K)) :
    (sortByTime l).length = l.length := by
  suffices h : ∀ acc : List (Row K),
      (l.foldl (fun acc r => insertByTime r acc) acc).length =
        acc.length + l.length by
    simpa using h []
  induction l with
  | nil =>
    intro acc
    simp
  | cons x xs ih =>
    intro acc
    rw [List.foldl_cons, ih, insertByTime_length, List.length_cons]
    omega

/-- Membership is preserved by id insertion. -/
theorem mem_insertId (a g : ℤ) (l : List ℤ) :
    a ∈ insertId g l ↔ a ∈ l ∨ a = g := by
  induction l with
  | nil => simp [insertId]
  | cons x xs ih =>
    unfold insertId
    by_cases h : x ≤ g
    · rw [if_pos h]
      simp [ih]
      tauto
    · rw [if_neg h]
      simp
      tauto

/-- Membership is preserved by the id sort. -/
theorem mem_sortIds (a : ℤ) (l : List ℤ) : a ∈ sortIds l ↔ a ∈ l := by
  suffices h : ∀ acc : List ℤ,
      a ∈ l.foldl (fun acc g => insertId g acc) acc ↔ a ∈ acc ∨ a ∈ l by
    simpa using h []
  induction l with
  | nil =>
    intro acc
    simp
  | cons x xs ih =>
    intro acc
    rw [List.foldl_cons, ih, mem_insertId]
    simp
    tauto

/-- The group keys are exactly the drone ids occurring in the dataset. -/
theorem mem_droneIds (a : ℤ) (df : List (Row K)) :
    a ∈ droneIds df ↔ ∃ r ∈ df, r.droneID = a := by
  unfold droneIds
  rw [mem_sortIds, List.mem_dedup, List.mem_map]

/-- A non-empty drone group always survives the per-group resampling
step. -/
theorem resampleGroup_isSome (df : List (Row K)) (step : K)
    (acc : List (Row K)) (g : ℤ)
    (h : df.filter (fun r => r.droneID == g) ≠ []) :
    ∃ L, resampleGroup df step acc g = some L := by
  unfold resampleGroup
  by_cases hs : 0 < step
  · rw [if_pos hs]
    have hne : (sortByTime (df.filter fun r => r.droneID == g)).map
        (rowToWaypoint (K := K)) ≠ [] := by
      intro hnil
      have hlen := congrArg List.length hnil
      rw [List.length_map, sortByTime_length] at hlen
      exact h (List.eq_nil_of_length_eq_zero hlen)
    obtain ⟨out, hout⟩ := interpolate_trajectory_isSome _ step hne
    rw [hout]
    exact ⟨_, rfl⟩
  · rw [if_neg hs]
    exact ⟨_, rfl⟩

/-- Folding the per-group resampling over groups that are all non-empty
never fails. -/
theorem foldlM_resampleGroup_isSome (df : List (Row K)) (step : K)
    (ids : List ℤ)
    (h : ∀ g ∈ ids, df.filter (fun r => r.droneID == g) ≠ []) :
    ∀ acc : List (Row K),
      ∃ L, ids.foldlM (resampleGroup df step) acc = some L := by
  induction ids with
  | nil =>
    intro acc
    exact ⟨acc, rfl⟩
  | cons g gs ih =>
    intro acc
    obtain ⟨L1, hL1⟩ := resampleGroup_isSome df step acc g (h g (by simp))
    obtain ⟨L2, hL2⟩ := ih (fun x hx => h x (by simp [hx])) L1
    refine ⟨L2, ?_⟩
    rw [List.foldlM_cons, hL1]
    simpa using hL2

/-- C6: when the primary id has no rows in the dataset the orchestrator
completes without error and returns the pair of empty conflict lists. -/
theorem C6_empty_primary (cosd : K → K) (hdist : K → K → K → K → K)
    (sqrtf : K → K) (df : List (Row K)) (primary_id : ℤ)
    (min_distance_meters time_window_sec interp_step_sec : K)
    (h : ∀ r ∈ df, r.droneID ≠ primary_id) :
    check_primary_mission_conflicts cosd hdist sqrtf df primary_id
      min_distance_meters time_window_sec interp_step_sec = some ([], []) := by
  have hflt : ∀ g ∈ (droneIds df).filter (fun g => g != primary_id),
      df.filter (fun r => r.droneID == g) ≠ [] := by
    intro g hg
    rw [List.mem_filter] at hg
    obtain ⟨hgid, -⟩ := hg
    rw [mem_droneIds] at hgid
    obtain ⟨r, hr, hrid⟩ := hgid
    intro hnil
    have hmem : r ∈ df.filter (fun r => r.droneID == g) :=
      List.mem_filter.2 ⟨hr, by simp [hrid]⟩
    rw [hnil] at hmem
    exact absurd hmem (List.not_mem_nil r)
  obtain ⟨L, hL⟩ := foldlM_resampleGroup_isSome df interp_step_sec _ hflt []
  have hprim : df.filter (fun r => r.droneID == primary_id) = [] := by
    rw [List.filter_eq_nil_iff]
    intro r hr
    simp [h r hr]
  unfold check_primary_mission_conflicts
  rw [hL]
  simp only [Option.bind_eq_bind, Option.some_bind]
  rw [hprim]
  rfl

theorem C6_empty_primary_witness :
    (∀ r ∈ ([⟨1,0,0,0,0⟩] : List (Row ℚ)), r.droneID ≠ 2) ∧
      check_primary_mission_conflicts (fun x => x) (fun _ _ _ _ => 0)
        (fun x => x) ([⟨1,0,0,0,0⟩] : List (Row ℚ)) 2 1 1 1 = some ([], []) :=
  ⟨by decide,
    C6_empty_primary (fun x => x) (fun _ _ _ _ => 0) (fun x => x)
      ([⟨1,0,0,0,0⟩] : List (Row ℚ)) 2 1 1 1 (by decide)⟩

/-- C9: whenever the top-level query completes, its status string is
"clear" exactly when both returned conflict lists are empty, and is
"conflict detected" in every other case. -/
theorem C9_status_iff (cosd : K → K) (hdist : K → K → K → K → K)
    (sqrtf : K → K) (df : List (Row K)) (primary_id : ℤ)
    (min_distance_meters time_window_sec interp_step_sec : K)
    (res : MissionStatusResult K)
    (h : query_mission_status cosd hdist sqrtf df primary_id
      min_distance_meters time_window_sec interp_step_sec = some res) :
    (res.status = "clear" ↔
      res.spatial_conflicts = [] ∧ res.temporal_conflicts = []) ∧
    (res.status = "clear" ∨ res.status = "conflict detected") := by
  unfold query_mission_status at h
  cases hc : check_primary_mission_conflicts cosd hdist sqrtf df primary_id
      min_distance_meters time_window_sec interp_step_sec with
  | none =>
    rw [hc] at h
    exact absurd h (by simp)
  | some pr =>
    rw [hc] at h
    simp only [Option.bind_eq_bind, Option.some_bind, Option.pure_def,
      Option.some.injEq] at h
    subst h
    dsimp only
    by_cases he : (pr.1.isEmpty && pr.2.isEmpty) = true
    · rw [if_pos he]
      rw [Bool.and_eq_true, List.isEmpty_iff, List.isEmpty_iff] at he
      exact ⟨⟨fun _ => he, fun _ => rfl⟩, Or.inl rfl⟩
    · rw [if_neg he]
      constructor
      · constructor
        · intro hcd
          exact absurd hcd (by decide)
        · rintro ⟨hs, ht⟩
          exact absurd (by rw [Bool.and_eq_true, List.isEmpty_iff,
            List.isEmpty_iff]; exact ⟨hs, ht⟩) he
      · exact Or.inr rfl

theorem C9_status_iff_witness :
    query_mission_status (fun x => x) (fun _ _ _ _ => 0) (fun x => x)
        ([] : List (Row ℚ)) 1 1 1 1 =
      some ⟨"clear", [], []⟩ ∧
    ((⟨"clear", [], []⟩ : MissionStatusResult ℚ).status = "clear" ↔
      (⟨"clear", [], []⟩ : MissionStatusResult ℚ).spatial_conflicts = [] ∧
        (⟨"clear", [], []⟩ : MissionStatusResult ℚ).temporal_conflicts = []) ∧
    ((⟨"clear", [], []⟩ : MissionStatusResult ℚ).status = "clear" ∨
      (⟨"clear", [], []⟩ : MissionStatusResult ℚ).status = "conflict detected") :=
  ⟨rfl,
    C9_status_iff (fun x => x) (fun _ _ _ _ => 0) (fun x => x)
      ([] : List (Row ℚ)) 1 1 1 1 ⟨"clear", [], []⟩ rfl⟩

end OrchestratorTheorems

end UAV
